import Mathlib

/-
  Verification of the Kubernetes agent in `myagent.py`.

  The file shallowly embeds the three functions the claims are about:
  `generate_deployment_yaml` (lines 21-41), `apply_yaml` (lines 44-51) and
  `CreateDeploymentTool._run` (lines 58-94).  Python values that can appear
  in a manifest are modelled by `PyVal`; `json.loads`, the two `re.search`
  patterns, `str.split()` and `int()` are modelled over the subset of their
  behaviour these inputs exercise (ASCII text, JSON without `\u` escapes).
  I/O boundaries (the kubectl subprocess, the temporary file) are modelled
  explicitly: `apply_yaml` takes the subprocess behaviour as a function
  argument and returns the file-system events it performs, and a `run`
  result `.ok m` means `apply_yaml` was invoked on manifest `m` and its
  output returned to the caller.
-/

namespace MyAgent

/-- Model of the Python values flowing through the program: JSON-decoded
data, manifest dictionaries, and the scalar arguments of
`generate_deployment_yaml`.  `float` carries the source lexeme, since no
claim inspects floating point numerically. -/
inductive PyVal where
  | pyNone : PyVal
  | bool : Bool → PyVal
  | int : Int → PyVal
  | float : String → PyVal
  | str : String → PyVal
  | list : List PyVal → PyVal
  | dict : List (String × PyVal) → PyVal

/-- Python exceptions that `CreateDeploymentTool._run` can raise. -/
inductive PyError where
  | valueError : String → PyError
  | attributeError : PyError
deriving DecidableEq

/-! ### Model of `json.loads`  -/

/-- JSON whitespace accepted between tokens by Python's json module. -/
def isJsonWs (c : Char) : Bool :=
  c = ' ' || c = '\t' || c = '\n' || c = '\r'

/-- Drop leading JSON whitespace. -/
def skipWs : List Char → List Char
  | [] => []
  | c :: cs => if isJsonWs c then skipWs cs else c :: cs

/-- JSON string escape characters (the `\u` form is outside the modelled
subset).  The quote, solidus and backslash escape to themselves. -/
def jsonEscChar (e : Char) : Option Char :=
  if e = 'n' then some '\n'
  else if e = 't' then some '\t'
  else if e = 'r' then some '\r'
  else if e = '"' ∨ e = '/' ∨ e = '\\' then some e
  else if e = 'b' then some (Char.ofNat 8)
  else if e = 'f' then some (Char.ofNat 12)
  else none

/-- Parse the remainder of a JSON string after the opening quote, returning
the decoded characters and the input after the closing quote. -/
def parseStringRest : List Char → Option (List Char × List Char)
  | [] => none
  | '"' :: cs => some ([], cs)
  | '\\' :: [] => none
  | '\\' :: e :: cs =>
    match jsonEscChar e with
    | none => none
    | some ec => (parseStringRest cs).map (fun p => (ec :: p.1, p.2))
  | c :: cs =>
    if c.toNat < 32 then none
    else (parseStringRest cs).map (fun p => (c :: p.1, p.2))

/-- Digits to a natural number. -/
def digitsToNat (ds : List Char) : Nat :=
  ds.foldl (fun a c => a * 10 + (c.toNat - 48)) 0

/-- The integer part of a JSON number: `0`, or a nonzero digit followed by
digits (JSON forbids leading zeros). -/
def parseIntDigits : List Char → Option (List Char × List Char)
  | [] => none
  | c :: cs =>
    if c = '0' then some (['0'], cs)
    else if c.isDigit then
      some (c :: cs.takeWhile Char.isDigit, cs.dropWhile Char.isDigit)
    else none

/-- The optional fraction part `.digits` of a JSON number; returns the
consumed lexeme (possibly empty) and the rest. -/
def parseFrac : List Char → List Char × List Char
  | '.' :: c :: cs =>
    if c.isDigit then
      ('.' :: c :: cs.takeWhile Char.isDigit, cs.dropWhile Char.isDigit)
    else ([], '.' :: c :: cs)
  | cs => ([], cs)

/-- The optional exponent part `[eE][+-]?digits` of a JSON number. -/
def parseExp (cs : List Char) : List Char × List Char :=
  match cs with
  | e :: rest =>
    if e = 'e' || e = 'E' then
      match (match rest with
             | '+' :: r => (['+'], r)
             | '-' :: r => (['-'], r)
             | r => (([] : List Char), r)) with
      | (sgn, d :: tail) =>
        if d.isDigit then
          (e :: (sgn ++ d :: tail.takeWhile Char.isDigit), tail.dropWhile Char.isDigit)
        else ([], cs)
      | (_, []) => ([], cs)
    else ([], cs)
  | [] => ([], cs)

/-- A JSON number: an integer yields `PyVal.int`; a fraction or exponent
yields `PyVal.float` carrying the lexeme. -/
def parseNumber (cs : List Char) : Option (PyVal × List Char) :=
  let signed : Bool × List Char :=
    match cs with
    | '-' :: r => (true, r)
    | r => (false, r)
  match parseIntDigits signed.2 with
  | none => none
  | some (ids, rest1) =>
    let fr := parseFrac rest1
    let ex := parseExp fr.2
    if fr.1.isEmpty && ex.1.isEmpty then
      let n : Int := Int.ofNat (digitsToNat ids)
      some (.int (if signed.1 then -n else n), ex.2)
    else
      some (.float (String.mk ((if signed.1 then ['-'] else []) ++ ids ++ fr.1 ++ ex.1)), ex.2)

mutual

/-- Parse one JSON value (input already at a non-whitespace position).
The fuel argument bounds recursion depth; `jsonDecode` supplies more fuel
than any input can consume. -/
def parseValue : Nat → List Char → Option (PyVal × List Char)
  | 0, _ => none
  | fuel + 1, cs =>
    match cs with
    | 'n' :: 'u' :: 'l' :: 'l' :: rest => some (.pyNone, rest)
    | 't' :: 'r' :: 'u' :: 'e' :: rest => some (.bool true, rest)
    | 'f' :: 'a' :: 'l' :: 's' :: 'e' :: rest => some (.bool false, rest)
    | 'N' :: 'a' :: 'N' :: rest => some (.float "NaN", rest)
    | 'I' :: 'n' :: 'f' :: 'i' :: 'n' :: 'i' :: 't' :: 'y' :: rest =>
      some (.float "Infinity", rest)
    | '-' :: 'I' :: 'n' :: 'f' :: 'i' :: 'n' :: 'i' :: 't' :: 'y' :: rest =>
      some (.float "-Infinity", rest)
    | '"' :: rest => (parseStringRest rest).map (fun p => (.str (String.mk p.1), p.2))
    | '[' :: rest =>
      (match skipWs rest with
       | ']' :: r => some (.list [], r)
       | rest1 => (parseArrayItems fuel rest1).map (fun p => (.list p.1, p.2)))
    | '{' :: rest =>
      (match skipWs rest with
       | '}' :: r => some (.dict [], r)
       | rest1 => (parseObjectItems fuel rest1).map (fun p => (.dict p.1, p.2)))
    | _ => parseNumber cs

/-- Comma-separated JSON array items up to the closing bracket. -/
def parseArrayItems : Nat → List Char → Option (List PyVal × List Char)
  | 0, _ => none
  | fuel + 1, cs =>
    match parseValue fuel cs with
    | none => none
    | some (v, rest) =>
      match skipWs rest with
      | ']' :: r => some ([v], r)
      | ',' :: r =>
        (match parseArrayItems fuel (skipWs r) with
         | none => none
         | some (vs, r2) => some (v :: vs, r2))
      | _ => none

/-- Comma-separated JSON object members up to the closing brace. -/
def parseObjectItems : Nat → List Char → Option (List (String × PyVal) × List Char)
  | 0, _ => none
  | fuel + 1, cs =>
    match cs with
    | '"' :: rest =>
      (match parseStringRest rest with
       | none => none
       | some (kcs, rest1) =>
         match skipWs rest1 with
         | ':' :: rest2 =>
           (match parseValue fuel (skipWs rest2) with
            | none => none
            | some (v, rest3) =>
              match skipWs rest3 with
              | '}' :: r => some ([(String.mk kcs, v)], r)
              | ',' :: r =>
                (match parseObjectItems fuel (skipWs r) with
                 | none => none
                 | some (ps, r2) => some ((String.mk kcs, v) :: ps, r2))
              | _ => none)
         | _ => none)
    | _ => none

end

/-- Model of `json.loads`: `some v` when the whole input is one JSON value
(with surrounding whitespace), `none` for a `json.JSONDecodeError`. -/
def jsonDecode (s : String) : Option PyVal :=
  match parseValue (s.data.length + 1) (skipWs s.data) with
  | some (v, rest) => if (skipWs rest).isEmpty then some v else none
  | none => none

/-! ### Python dict lookup -/

/-- Lookup in a decoded JSON object; with duplicate keys Python's dict
keeps the last occurrence. -/
def dictLookup (kvs : List (String × PyVal)) (k : String) : Option PyVal :=
  (kvs.reverse.find? (fun p => p.1 == k)).map (fun p => p.2)

/-- Model of Python's `dict.get(key, default)`. -/
def dictGetD (kvs : List (String × PyVal)) (k : String) (d : PyVal) : PyVal :=
  (dictLookup kvs k).getD d

/-! ### Models of `re.search`, `str.split()` and `int()` -/

/-- Python's `\s` class over the modelled ASCII subset. -/
def isPyWs (c : Char) : Bool :=
  c = ' ' || c = '\t' || c = '\n' || c = '\r' || c = '\x0b' || c = '\x0c'

/-- A character matched by `[^,\s]`. -/
def fieldValChar (c : Char) : Bool :=
  !(c = ',' || isPyWs c)

/-- Match a literal pattern as a prefix, returning the remainder. -/
def matchLiteral : List Char → List Char → Option (List Char)
  | [], cs => some cs
  | _ :: _, [] => none
  | p :: ps, c :: cs => if p = c then matchLiteral ps cs else none

/-- Leftmost match of `pat` followed by a nonempty run of `good`
characters, returning that run: the semantics of
`re.search(r'<pat>(<good>+)', s).group(1)`. -/
def searchRunAux (pat : List Char) (good : Char → Bool) : List Char → Option (List Char)
  | [] => none
  | c :: cs =>
    match matchLiteral pat (c :: cs) with
    | some rest =>
      let v := rest.takeWhile good
      if v.isEmpty then searchRunAux pat good cs else some v
    | none => searchRunAux pat good cs

/-- Model of `re.search(r'name=([^,\s]+)', s)` / the same for `image`:
`key` is `"name"` or `"image"`. -/
def reSearchField (key : String) (s : String) : Option String :=
  (searchRunAux (key.data ++ ['=']) fieldValChar s.data).map String.mk

/-- Model of `re.search(r'replicas=(\d+)', s)` composed with `int` on the
matched digits. -/
def reSearchReplicas (s : String) : Option Nat :=
  (searchRunAux ("replicas".data ++ ['=']) Char.isDigit s.data).map digitsToNat

/-- Worker for `pySplit`: accumulate the current word (reversed). -/
def splitWsAux : List Char → List Char → List String
  | acc, [] => if acc.isEmpty then [] else [String.mk acc.reverse]
  | acc, c :: cs =>
    if isPyWs c then
      if acc.isEmpty then splitWsAux [] cs
      else String.mk acc.reverse :: splitWsAux [] cs
    else splitWsAux (c :: acc) cs

/-- Model of Python's `str.split()` with no arguments: split on runs of
whitespace, discarding empty fields. -/
def pySplit (s : String) : List String :=
  splitWsAux [] s.data

/-- Model of Python's `int(str)` over the modelled subset: optional
surrounding whitespace, an optional sign, then a nonempty digit run;
`none` models a `ValueError`. -/
def pyInt (s : String) : Option Int :=
  let core := ((s.data.dropWhile isPyWs).reverse.dropWhile isPyWs).reverse
  match core with
  | '+' :: ds =>
    if !ds.isEmpty && ds.all Char.isDigit then some (Int.ofNat (digitsToNat ds)) else none
  | '-' :: ds =>
    if !ds.isEmpty && ds.all Char.isDigit then some (-(Int.ofNat (digitsToNat ds))) else none
  | ds =>
    if !ds.isEmpty && ds.all Char.isDigit then some (Int.ofNat (digitsToNat ds)) else none

/-! ### `generate_deployment_yaml` (myagent.py lines 21-41) -/

/-- The manifest compiler of the source: builds the Deployment dictionary
verbatim from the `deployment = {...}` literal.  The source's final
`yaml.dump` is a pure serialization of this structure at the boundary and
is modelled as the structured value itself, since every claim speaks about
the manifest's structure.  The parameter `nspace` embeds the source's
`namespace` parameter (a Lean keyword). -/
def generate_deployment_yaml (name image replicas : PyVal)
    (nspace : PyVal := .str "default") (port : PyVal := .int 80) : PyVal :=
  .dict [
    ("apiVersion", .str "apps/v1"),
    ("kind", .str "Deployment"),
    ("metadata", .dict [("name", name), ("namespace", nspace)]),
    ("spec", .dict [
      ("replicas", replicas),
      ("selector", .dict [("matchLabels", .dict [("app", name)])]),
      ("template", .dict [
        ("metadata", .dict [("labels", .dict [("app", name)])]),
        ("spec", .dict [
          ("containers", .list [.dict [
            ("name", name),
            ("image", image),
            ("ports", .list [.dict [("containerPort", port)]])
          ]])
        ])
      ])
    ])
  ]

/-! ### `CreateDeploymentTool._run` (myagent.py lines 58-94) -/

/-- The parsing portion of `_run` (lines 63-91): produces the
`(name, image, replicas)` triple handed to `generate_deployment_yaml`, or
the Python exception the code raises.  The JSON branch mirrors
`data.get('name') / data.get('image') / data.get('replicas', 1)` (an
`AttributeError` when the decoded value is not an object, since only
`json.JSONDecodeError` is caught); the `key=value` branch mirrors the
three `re.search` calls; the final branch mirrors `tool_input.split()`. -/
def parse_tool_input (tool_input : String) : Except PyError (PyVal × PyVal × PyVal) :=
  match jsonDecode tool_input with
  | some data =>
    (match data with
     | .dict kvs =>
       .ok (dictGetD kvs "name" .pyNone, dictGetD kvs "image" .pyNone,
            dictGetD kvs "replicas" (.int 1))
     | _ => .error .attributeError)
  | none =>
    if tool_input.data.any (fun c => c = '=') then
      match reSearchField "name" tool_input, reSearchField "image" tool_input with
      | some n, some i =>
        .ok (.str n, .str i,
             .int (match reSearchReplicas tool_input with
                   | some k => (k : Int)
                   | none => 1))
      | _, _ => .error (.valueError "Could not parse name and image from input")
    else
      match pySplit tool_input with
      | p0 :: p1 :: rest =>
        (match rest with
         | [] => .ok (.str p0, .str p1, .int 1)
         | p2 :: _ =>
           match pyInt p2 with
           | some r => .ok (.str p0, .str p1, .int r)
           | none => .error (.valueError ("invalid literal for int() with base 10: " ++ p2)))
      | _ =>
        .error (.valueError
          "Invalid input format. Expected: name image [replicas] or JSON or name=value, image=value")

/-- Lines 93-94 of `_run`: the parsed triple is compiled and applied with
no further checks.  A result `.ok m` means `apply_yaml` was invoked on the
compiled manifest `m` (`namespace` and `port` left at their defaults) and
its output string returned; `.error e` means the exception `e` escaped
before any cluster contact. -/
def run (tool_input : String) : Except PyError PyVal :=
  match parse_tool_input tool_input with
  | .error e => .error e
  | .ok (name, image, replicas) =>
    .ok (generate_deployment_yaml name image replicas (.str "default") (.int 80))

/-! ### `apply_yaml` (myagent.py lines 44-51) -/

/-- Result of `subprocess.run(["kubectl", "apply", "-f", tmp], ...)`. -/
structure SubprocResult where
  returncode : Int
  stdout : String
  stderr : String

/-- File-system events `apply_yaml` performs, in order. -/
inductive FsEvent where
  | writeTemp : PyVal → FsEvent
  | runKubectl : FsEvent
  | unlinkTemp : FsEvent

/-- Model of `apply_yaml`: the kubectl subprocess is external behaviour,
passed as a function from the applied manifest to its `SubprocResult`.
The returned string is `result.stdout` on return code 0 and
`result.stderr` otherwise; the event list records that the temporary
manifest file is written, kubectl is run, and the file is unlinked before
the function returns.  The function is total: no subprocess outcome raises. -/
def apply_yaml (kubectl : PyVal → SubprocResult) (yaml_content : PyVal) :
    String × List FsEvent :=
  let result := kubectl yaml_content
  ((if result.returncode = 0 then result.stdout else result.stderr),
   [.writeTemp yaml_content, .runKubectl, .unlinkTemp])

/-! ### Manifest navigation -/

/-- Follow a path of dictionary keys inside a manifest. -/
def getPath : PyVal → List String → Option PyVal
  | v, [] => some v
  | .dict kvs, k :: rest =>
    (match dictLookup kvs k with
     | some v => getPath v rest
     | none => none)
  | _, _ :: _ => none

/-- Whether a decoded JSON value is an object (a Python `dict`). -/
def isDict : PyVal → Bool
  | .dict _ => true
  | _ => false

mutual

/-- Structural equality on `PyVal` (Python `==` on these values). -/
def pyValBeq : PyVal → PyVal → Bool
  | .pyNone, .pyNone => true
  | .bool a, .bool b => a == b
  | .int a, .int b => a == b
  | .float a, .float b => a == b
  | .str a, .str b => a == b
  | .list xs, .list ys => pyListBeq xs ys
  | .dict xs, .dict ys => pyDictBeq xs ys
  | _, _ => false

/-- Structural equality on lists of `PyVal`. -/
def pyListBeq : List PyVal → List PyVal → Bool
  | [], [] => true
  | x :: xs, y :: ys => pyValBeq x y && pyListBeq xs ys
  | _, _ => false

/-- Structural equality on association lists of `PyVal`. -/
def pyDictBeq : List (String × PyVal) → List (String × PyVal) → Bool
  | [], [] => true
  | (k1, v1) :: xs, (k2, v2) :: ys => k1 == k2 && pyValBeq v1 v2 && pyDictBeq xs ys
  | _, _ => false

end

/-! ### DiffEngine (spec sections 4.2 and 8)

The repository's source contains no diff engine: `myagent.py` applies
manifests blindly.  The definitions below are therefore modelled from the
specification alone, to settle the claim about its conflict rule. -/

/-- Modelled from the spec: the observed state of one resource inside a
`ClusterSnapshot`, carrying the generation markers used to detect
mid-rollout conflicts (spec sections 4.2 and the glossary) and the
observed resource spec. -/
structure ObservedResource where
  specGeneration : Nat
  statusObservedGeneration : Nat
  resourceSpec : PyVal

/-- Modelled from the spec: `ClusterReader.get` returns a snapshot or
`NotFound` (spec section 6). -/
inductive ClusterSnapshot where
  | absent : ClusterSnapshot
  | present : ObservedResource → ClusterSnapshot

/-- Modelled from the spec: the ChangeSet states of spec sections 3 and
4.2 — `Create`/`Update`/`Delete`, the distinct `Conflict` state, and an
empty ChangeSet for a converged resource. -/
inductive ChangeSet where
  | create : PyVal → ChangeSet
  | update : PyVal → ChangeSet
  | delete : ChangeSet
  | conflict : ChangeSet
  | noChange : ChangeSet

/-- Modelled from the spec: the `Update` carries only the changed fields
(spec section 4.2), here the desired dictionary entries whose value
differs from the observed one. -/
def changedFields (desired observed : PyVal) : PyVal :=
  match desired, observed with
  | .dict ds, .dict os =>
    .dict (ds.filter (fun p => !pyValBeq p.2 (dictGetD os p.1 .pyNone)))
  | d, _ => d

/-- Modelled from the spec: `diff(desired, observed)` of section 4.2.
`desired = none` encodes a resource requested absent (a
`DeleteDeployment` intent).  The mid-rollout generation check is applied
before any Create/Update/Delete classification, per the tie-break rule. -/
def diff (desired : Option PyVal) (observed : ClusterSnapshot) : ChangeSet :=
  match observed with
  | .absent =>
    (match desired with
     | some d => .create d
     | none => .noChange)
  | .present r =>
    if r.specGeneration ≠ r.statusObservedGeneration then .conflict
    else
      match desired with
      | none => .delete
      | some d =>
        if pyValBeq d r.resourceSpec then .noChange
        else .update (changedFields d r.resourceSpec)

/-! ### The three input formats as the specification describes them -/

/-- The JSON format as claimed: a decoded JSON object yields
`(name, image, replicas)` from its fields with `replicas` defaulting to 1;
a decoded non-object hits `data.get` and raises `AttributeError`. -/
def json_format (data : PyVal) : Except PyError (PyVal × PyVal × PyVal) :=
  match data with
  | .dict kvs =>
    .ok (dictGetD kvs "name" .pyNone, dictGetD kvs "image" .pyNone,
         dictGetD kvs "replicas" (.int 1))
  | _ => .error .attributeError

/-- The `key=value` format as claimed: `name=...` and `image=...` pairs
with an optional `replicas=...`, a `ValueError` when name and image cannot
both be found. -/
def kv_format (s : String) : Except PyError (PyVal × PyVal × PyVal) :=
  match reSearchField "name" s, reSearchField "image" s with
  | some n, some i =>
    .ok (.str n, .str i,
         .int (match reSearchReplicas s with
               | some k => (k : Int)
               | none => 1))
  | _, _ => .error (.valueError "Could not parse name and image from input")

/-- The whitespace-separated format as claimed: `name image [replicas]`,
a `ValueError` when fewer than two fields are present. -/
def ws_format (s : String) : Except PyError (PyVal × PyVal × PyVal) :=
  match pySplit s with
  | p0 :: p1 :: rest =>
    (match rest with
     | [] => .ok (.str p0, .str p1, .int 1)
     | p2 :: _ =>
       match pyInt p2 with
       | some r => .ok (.str p0, .str p1, .int r)
       | none => .error (.valueError ("invalid literal for int() with base 10: " ++ p2)))
  | _ =>
    .error (.valueError
      "Invalid input format. Expected: name image [replicas] or JSON or name=value, image=value")

/-- Every successful `run` applies a manifest compiled by
`generate_deployment_yaml` with the defaulted namespace and port. -/
theorem run_ok_shape (s : String) (m : PyVal) (h : run s = .ok m) :
    ∃ n i r, m = generate_deployment_yaml n i r (.str "default") (.int 80) := by
  unfold run at h
  cases hp : parse_tool_input s with
  | error e => rw [hp] at h; cases h
  | ok t =>
    obtain ⟨n, i, r⟩ := t
    rw [hp] at h
    cases h
    exact ⟨n, i, r, rfl⟩

/-! ## Claims -/

/-- C1: for the intent `name="web"`, `image="nginx:1.25"`, `replicas=3`,
`namespace="default"`, `port=80`, the manifest compiler
`generate_deployment_yaml` produces a Deployment manifest whose spec has
exactly one container spec, `replicas` equal to 3, and exactly one port
mapping with `containerPort` 80. -/
theorem c1_single_container_manifest :
    getPath (generate_deployment_yaml (.str "web") (.str "nginx:1.25") (.int 3)
      (.str "default") (.int 80)) ["kind"] = some (.str "Deployment") ∧
    getPath (generate_deployment_yaml (.str "web") (.str "nginx:1.25") (.int 3)
      (.str "default") (.int 80)) ["spec", "replicas"] = some (.int 3) ∧
    getPath (generate_deployment_yaml (.str "web") (.str "nginx:1.25") (.int 3)
      (.str "default") (.int 80)) ["spec", "template", "spec", "containers"] =
      some (.list [.dict [("name", .str "web"), ("image", .str "nginx:1.25"),
        ("ports", .list [.dict [("containerPort", .int 80)]])]]) :=
  ⟨rfl, rfl, rfl⟩

/-- C2: manifest compilation is deterministic and pure: two calls of
`generate_deployment_yaml` on the same `(name, image, replicas, namespace,
port)` tuple return structurally identical manifests.  The function is
embedded as a total pure function because the source performs no I/O and
no network access: it only builds a dictionary literal and serializes it. -/
theorem c2_compile_deterministic (n₁ i₁ r₁ s₁ p₁ n₂ i₂ r₂ s₂ p₂ : PyVal)
    (hn : n₁ = n₂) (hi : i₁ = i₂) (hr : r₁ = r₂) (hs : s₁ = s₂) (hp : p₁ = p₂) :
    generate_deployment_yaml n₁ i₁ r₁ s₁ p₁ = generate_deployment_yaml n₂ i₂ r₂ s₂ p₂ := by
  subst hn hi hr hs hp
  rfl

/-- Witness for C2 at the example intent. -/
theorem c2_witness :
    generate_deployment_yaml (.str "web") (.str "nginx:1.25") (.int 3)
        (.str "default") (.int 80)
      = generate_deployment_yaml (.str "web") (.str "nginx:1.25") (.int 3)
        (.str "default") (.int 80) :=
  c2_compile_deterministic _ _ _ _ _ _ _ _ _ _ rfl rfl rfl rfl rfl

/-- C3 counterexample: the intent with empty name and replicas −3,
supplied as JSON, is compiled to a manifest and handed to `apply_yaml`:
no `InvalidField` (or any) error is raised. -/
theorem c3_counterexample :
    run "\x7b\"name\": \"\", \"image\": \"nginx\", \"replicas\": -3\x7d"
      = .ok (generate_deployment_yaml (.str "") (.str "nginx") (.int (-3))
          (.str "default") (.int 80)) ∧
    getPath (generate_deployment_yaml (.str "") (.str "nginx") (.int (-3))
      (.str "default") (.int 80)) ["spec", "replicas"] = some (.int (-3)) ∧
    getPath (generate_deployment_yaml (.str "") (.str "nginx") (.int (-3))
      (.str "default") (.int 80)) ["metadata", "name"] = some (.str "") :=
  ⟨rfl, rfl, rfl⟩

/-- C3 amended: neither `generate_deployment_yaml` nor the tool validates
`name` or `replicas`: every intent — including one with negative replicas
or an empty name — produces a manifest embedding those values verbatim;
no `InvalidField` error exists in the code. -/
theorem c3_no_validation (n : String) (r : Int) (image nspace port : PyVal) :
    getPath (generate_deployment_yaml (.str n) image (.int r) nspace port)
      ["metadata", "name"] = some (.str n) ∧
    getPath (generate_deployment_yaml (.str n) image (.int r) nspace port)
      ["spec", "replicas"] = some (.int r) :=
  ⟨rfl, rfl⟩

/-- C4 counterexample: the JSON input `{"name": "web"}` lacks an image,
yet the tool does not fail locally: the manifest (with `image` null) is
compiled and handed to `apply_yaml`, reaching the cluster. -/
theorem c4_counterexample :
    run "\x7b\"name\": \"web\"\x7d"
      = .ok (generate_deployment_yaml (.str "web") .pyNone (.int 1)
          (.str "default") (.int 80)) :=
  rfl

/-- C4 amended: in the `key=value` and whitespace formats a missing image
fails locally with a `ValueError` before any cluster contact, but in the
JSON format a missing `image` key silently becomes `None` and the manifest
is applied anyway. -/
theorem c4_missing_image (s : String) :
    (jsonDecode s = none → s.data.any (fun c => c = '=') = true →
      reSearchField "image" s = none →
      parse_tool_input s = .error (.valueError "Could not parse name and image from input")) ∧
    (jsonDecode s = none → s.data.any (fun c => c = '=') = false →
      (pySplit s).length < 2 →
      parse_tool_input s = .error (.valueError
        "Invalid input format. Expected: name image [replicas] or JSON or name=value, image=value")) ∧
    (∀ kvs, jsonDecode s = some (.dict kvs) → dictLookup kvs "image" = none →
      run s = .ok (generate_deployment_yaml (dictGetD kvs "name" .pyNone) .pyNone
        (dictGetD kvs "replicas" (.int 1)) (.str "default") (.int 80))) := by
  refine ⟨?_, ?_, ?_⟩
  · intro h1 h2 h3
    unfold parse_tool_input
    rw [h1, h2, h3]
    cases hn : reSearchField "name" s <;> simp
  · intro h1 h2 h3
    unfold parse_tool_input
    rw [h1, h2]
    cases hp : pySplit s with
    | nil => simp
    | cons p0 t =>
      cases t with
      | nil => simp
      | cons p1 t2 => rw [hp] at h3; simp at h3; omega
  · intro kvs h1 h2
    unfold run parse_tool_input
    rw [h1]
    simp [dictGetD, h2]

/-- Witness for C4 amended: a `key=value` input and a whitespace input
without an image fail locally; the JSON input without an image is applied. -/
theorem c4_witness :
    parse_tool_input "name=web"
      = .error (.valueError "Could not parse name and image from input") ∧
    parse_tool_input "web"
      = .error (.valueError
        "Invalid input format. Expected: name image [replicas] or JSON or name=value, image=value") ∧
    run "\x7b\"name\": \"web\"\x7d"
      = .ok (generate_deployment_yaml (.str "web") .pyNone (.int 1)
          (.str "default") (.int 80)) :=
  ⟨(c4_missing_image "name=web").1 rfl rfl rfl,
   (c4_missing_image "web").2.1 rfl rfl (by decide),
   (c4_missing_image "\x7b\"name\": \"web\"\x7d").2.2 [("name", .str "web")] rfl rfl⟩

/-- C5: the tool's input parser accepts exactly three textual formats,
tried in a fixed order: JSON first; on JSON decode failure the `key=value`
format when the input contains `=` (a `ValueError` when `name=` and
`image=` cannot both be matched); otherwise whitespace-separated
`name image [replicas]` (a `ValueError` when fewer than two fields are
present). -/
theorem c5_three_formats_in_order (s : String) :
    (∀ d, jsonDecode s = some d → parse_tool_input s = json_format d) ∧
    (jsonDecode s = none → s.data.any (fun c => c = '=') = true →
      parse_tool_input s = kv_format s) ∧
    (jsonDecode s = none → s.data.any (fun c => c = '=') = false →
      parse_tool_input s = ws_format s) ∧
    (jsonDecode s = none → s.data.any (fun c => c = '=') = true →
      (reSearchField "name" s = none ∨ reSearchField "image" s = none) →
      parse_tool_input s = .error (.valueError "Could not parse name and image from input")) ∧
    (jsonDecode s = none → s.data.any (fun c => c = '=') = false →
      (pySplit s).length < 2 →
      parse_tool_input s = .error (.valueError
        "Invalid input format. Expected: name image [replicas] or JSON or name=value, image=value")) := by
  refine ⟨?_, ?_, ?_, ?_, ?_⟩
  · intro d h1
    unfold parse_tool_input json_format
    rw [h1]
  · intro h1 h2
    unfold parse_tool_input kv_format
    rw [h1, h2]
    rfl
  · intro h1 h2
    unfold parse_tool_input ws_format
    rw [h1, h2]
    rfl
  · intro h1 h2 h3
    unfold parse_tool_input
    rw [h1, h2]
    rcases h3 with h3 | h3
    · rw [h3]; simp
    · rw [h3]; cases hn : reSearchField "name" s <;> simp
  · intro h1 h2 h3
    unfold parse_tool_input
    rw [h1, h2]
    cases hp : pySplit s with
    | nil => simp
    | cons p0 t =>
      cases t with
      | nil => simp
      | cons p1 t2 => rw [hp] at h3; simp at h3; omega

/-- Witness for C5 at one concrete input of each format. -/
theorem c5_witness :
    parse_tool_input "\x7b\"a\": 1\x7d" = json_format (.dict [("a", .int 1)]) ∧
    parse_tool_input "name=web, image=nginx" = kv_format "name=web, image=nginx" ∧
    parse_tool_input "web nginx" = ws_format "web nginx" ∧
    parse_tool_input "image=nginx"
      = .error (.valueError "Could not parse name and image from input") ∧
    parse_tool_input "web"
      = .error (.valueError
        "Invalid input format. Expected: name image [replicas] or JSON or name=value, image=value") :=
  ⟨(c5_three_formats_in_order _).1 _ rfl,
   (c5_three_formats_in_order _).2.1 rfl rfl,
   (c5_three_formats_in_order _).2.2.1 rfl rfl,
   (c5_three_formats_in_order _).2.2.2.1 rfl rfl (Or.inl rfl),
   (c5_three_formats_in_order _).2.2.2.2 rfl rfl (by decide)⟩

/-- C6: for every tool input that parses successfully, the compiled
manifest is applied unconditionally: the tool's result is
`apply_yaml (generate_deployment_yaml name image replicas)` with the
defaulted namespace and port — no read of observed cluster state, no
diff, no conflict detection, and no rollback (the embedding of the
apply boundary takes only the manifest as input). -/
theorem c6_applies_unconditionally (s : String) (n i r : PyVal)
    (h : parse_tool_input s = .ok (n, i, r)) :
    run s = .ok (generate_deployment_yaml n i r (.str "default") (.int 80)) := by
  unfold run
  rw [h]

/-- Witness for C6 at the input `web nginx 3`. -/
theorem c6_witness :
    parse_tool_input "web nginx 3" = .ok (.str "web", .str "nginx", .int 3) ∧
    run "web nginx 3" = .ok (generate_deployment_yaml (.str "web") (.str "nginx")
      (.int 3) (.str "default") (.int 80)) :=
  ⟨rfl, c6_applies_unconditionally "web nginx 3" (.str "web") (.str "nginx") (.int 3) rfl⟩

/-- C7: for every observed snapshot whose spec generation and status
observed-generation disagree (resource mid-rollout), `diff` returns the
`Conflict` ChangeSet — hence never a regular Create, Update, or Delete.
The DiffEngine exists only in the specification and is modelled from it. -/
theorem c7_conflict_on_generation_mismatch (desired : Option PyVal) (r : ObservedResource)
    (h : r.specGeneration ≠ r.statusObservedGeneration) :
    diff desired (.present r) = .conflict := by
  simp [diff, h]

/-- Witness for C7: a resource at spec generation 2 with observed
generation 1 diffs to `Conflict`. -/
theorem c7_witness :
    (2 : Nat) ≠ 1 ∧
    diff (some (.dict [])) (.present ⟨2, 1, .dict []⟩) = .conflict :=
  ⟨by decide, c7_conflict_on_generation_mismatch (some (.dict [])) ⟨2, 1, .dict []⟩ (by decide)⟩

/-- C8: for every input string that decodes as JSON to a non-object
value, `_run` raises an uncaught `AttributeError` from `data.get` —
it neither falls back to the other formats nor returns a structured
error, because only `json.JSONDecodeError` is caught. -/
theorem c8_nonobject_json_attribute_error (s : String) (v : PyVal)
    (hv : jsonDecode s = some v) (hd : isDict v = false) :
    run s = .error .attributeError := by
  unfold run parse_tool_input
  rw [hv]
  cases v <;> simp_all [isDict]

/-- Witness for C8 at the valid non-object JSON input `3`. -/
theorem c8_witness :
    jsonDecode "3" = some (.int 3) ∧ isDict (.int 3) = false ∧
    run "3" = .error .attributeError :=
  ⟨rfl, rfl, c8_nonobject_json_attribute_error "3" (.int 3) rfl rfl⟩

/-- C9: `apply_yaml` never raises on a kubectl failure and never signals
failure by type: it returns the subprocess's stdout when the return code
is 0 and its stderr otherwise (the model is a total function into
`String`, so success and failure differ only in message content), and in
both cases the temporary manifest file is written and unlinked before the
function returns. -/
theorem c9_apply_yaml_total (kubectl : PyVal → SubprocResult) (c : PyVal) :
    ((kubectl c).returncode = 0 → (apply_yaml kubectl c).1 = (kubectl c).stdout) ∧
    ((kubectl c).returncode ≠ 0 → (apply_yaml kubectl c).1 = (kubectl c).stderr) ∧
    (apply_yaml kubectl c).2 = [.writeTemp c, .runKubectl, .unlinkTemp] := by
  refine ⟨?_, ?_, rfl⟩
  · intro h
    simp [apply_yaml, h]
  · intro h
    simp [apply_yaml, h]

/-- Witness for C9 under a succeeding and a failing kubectl. -/
theorem c9_witness :
    (apply_yaml (fun _ : PyVal => SubprocResult.mk 0 "created" "boom") (.str "m")).1
      = "created" ∧
    (apply_yaml (fun _ : PyVal => SubprocResult.mk 1 "created" "boom") (.str "m")).1
      = "boom" ∧
    (apply_yaml (fun _ : PyVal => SubprocResult.mk 1 "created" "boom") (.str "m")).2
      = [.writeTemp (.str "m"), .runKubectl, .unlinkTemp] :=
  ⟨(c9_apply_yaml_total (fun _ : PyVal => SubprocResult.mk 0 "created" "boom") (.str "m")).1 rfl,
   (c9_apply_yaml_total (fun _ : PyVal => SubprocResult.mk 1 "created" "boom") (.str "m")).2.1
     (by decide),
   (c9_apply_yaml_total (fun _ : PyVal => SubprocResult.mk 1 "created" "boom") (.str "m")).2.2⟩

/-- C10 counterexample: in the `key=value` format the replicas value
`12abc` is not a nonnegative integer literal, yet it is neither ignored
nor defaulted to 1: the regex `replicas=(\d+)` matches the digit prefix
and the manifest carries replicas 12. -/
theorem c10_counterexample :
    run "name=a, image=b, replicas=12abc"
      = .ok (generate_deployment_yaml (.str "a") (.str "b") (.int 12)
          (.str "default") (.int 80)) ∧
    getPath (generate_deployment_yaml (.str "a") (.str "b") (.int 12)
      (.str "default") (.int 80)) ["spec", "replicas"] = some (.int 12) ∧
    PyVal.int 12 ≠ PyVal.int 1 :=
  ⟨rfl, rfl, by simp⟩

/-- C10 amended: in every accepted input format an omitted replicas field
defaults to 1 (namespace and containerPort always default to `default`
and 80), and in the `key=value` format a replicas value with no digits
immediately after `replicas=` (e.g. `replicas=-3` or `replicas=two`) is
silently ignored and defaults to 1; a value with a leading digit run
contributes that prefix instead. -/
theorem c10_replicas_defaults (s : String) :
    (∀ kvs, jsonDecode s = some (.dict kvs) → dictLookup kvs "replicas" = none →
      run s = .ok (generate_deployment_yaml (dictGetD kvs "name" .pyNone)
        (dictGetD kvs "image" .pyNone) (.int 1) (.str "default") (.int 80))) ∧
    (∀ n i, jsonDecode s = none → s.data.any (fun c => c = '=') = true →
      reSearchField "name" s = some n → reSearchField "image" s = some i →
      reSearchReplicas s = none →
      run s = .ok (generate_deployment_yaml (.str n) (.str i) (.int 1)
        (.str "default") (.int 80))) ∧
    (∀ a b, jsonDecode s = none → s.data.any (fun c => c = '=') = false →
      pySplit s = [a, b] →
      run s = .ok (generate_deployment_yaml (.str a) (.str b) (.int 1)
        (.str "default") (.int 80))) ∧
    (∀ m, run s = .ok m →
      getPath m ["metadata", "namespace"] = some (.str "default") ∧
      ∃ nm im, getPath m ["spec", "template", "spec", "containers"] =
        some (.list [.dict [("name", nm), ("image", im),
          ("ports", .list [.dict [("containerPort", .int 80)]])]])) := by
  refine ⟨?_, ?_, ?_, ?_⟩
  · intro kvs h1 h2
    unfold run parse_tool_input
    rw [h1]
    simp [dictGetD, h2]
  · intro n i h1 h2 h3 h4 h5
    unfold run parse_tool_input
    rw [h1, h2, h3, h4, h5]
    rfl
  · intro a b h1 h2 h3
    unfold run parse_tool_input
    rw [h1, h2, h3]
    rfl
  · intro m h
    obtain ⟨n, i, r, rfl⟩ := run_ok_shape s m h
    exact ⟨rfl, n, i, rfl⟩

/-- Witness for C10 amended: omitted replicas in each format, and ignored
non-numeric replicas values in the `key=value` format. -/
theorem c10_witness :
    run "\x7b\"name\": \"a\", \"image\": \"b\"\x7d"
      = .ok (generate_deployment_yaml (.str "a") (.str "b") (.int 1)
          (.str "default") (.int 80)) ∧
    run "name=a, image=b, replicas=-3"
      = .ok (generate_deployment_yaml (.str "a") (.str "b") (.int 1)
          (.str "default") (.int 80)) ∧
    run "name=a, image=b, replicas=two"
      = .ok (generate_deployment_yaml (.str "a") (.str "b") (.int 1)
          (.str "default") (.int 80)) ∧
    run "a b"
      = .ok (generate_deployment_yaml (.str "a") (.str "b") (.int 1)
          (.str "default") (.int 80)) ∧
    getPath (generate_deployment_yaml (.str "a") (.str "b") (.int 1)
      (.str "default") (.int 80)) ["metadata", "namespace"] = some (.str "default") :=
  ⟨(c10_replicas_defaults _).1 [("name", .str "a"), ("image", .str "b")] rfl rfl,
   (c10_replicas_defaults _).2.1 "a" "b" rfl rfl rfl rfl rfl,
   (c10_replicas_defaults _).2.1 "a" "b" rfl rfl rfl rfl rfl,
   (c10_replicas_defaults _).2.2.1 "a" "b" rfl rfl rfl,
   ((c10_replicas_defaults "a b").2.2.2 _ ((c10_replicas_defaults _).2.2.1 "a" "b" rfl rfl rfl)).1⟩

end MyAgent
